/-
  Verification of the dsme thermal manager (src/modules/thermalmanager.c)
  and the temp reaper module (src/modules/tempreaper.c).

  The C module state (the list of registered thermal objects, the global
  current_status, and the sticky overheated flag local to
  send_thermal_indication) is embedded as an explicit state record; the
  message broadcasts and D-Bus signal emissions are embedded as an event
  trace returned alongside the new state.  Thermal statuses are embedded
  as naturals 0..3 matching the C enum THERMAL_STATUS.
-/
import Mathlib

namespace Dsme

/-- The C enum value THERMAL_STATUS_NORMAL. -/
def THERMAL_STATUS_NORMAL : Nat := 0

/-- The C enum value THERMAL_STATUS_WARNING. -/
def THERMAL_STATUS_WARNING : Nat := 1

/-- The C enum value THERMAL_STATUS_ALERT. -/
def THERMAL_STATUS_ALERT : Nat := 2

/-- The C enum value THERMAL_STATUS_FATAL. -/
def THERMAL_STATUS_FATAL : Nat := 3

/-- Per-band configuration: inclusive temperature range and poll-interval
    bounds (struct thermal_status_configuration_t). -/
structure thermal_status_configuration_t where
  min : Int
  max : Int
  mintime : Int
  maxtime : Int
deriving Repr, DecidableEq, Inhabited

/-- Per-sensor configuration: name and the four per-band entries of the
    state array (struct thermal_object_configuration_t). -/
structure thermal_object_configuration_t where
  name : String
  state0 : thermal_status_configuration_t
  state1 : thermal_status_configuration_t
  state2 : thermal_status_configuration_t
  state3 : thermal_status_configuration_t
deriving Repr, DecidableEq, Inhabited

/-- Array indexing conf->state[i] for a status index i (the C code only
    ever indexes with a valid THERMAL_STATUS value 0..3). -/
def thermal_object_configuration_t.state
    (conf : thermal_object_configuration_t) : Nat → thermal_status_configuration_t
  | 0 => conf.state0
  | 1 => conf.state1
  | 2 => conf.state2
  | _ => conf.state3

/-- Run-time state of one registered sensor (struct thermal_object_t). -/
structure thermal_object_t where
  conf : thermal_object_configuration_t
  status : Nat
  request_pending : Bool
deriving Repr, DecidableEq, Inhabited

/-- Unit-normalization heuristics of receive_temperature_response
    (lines 189-197): divide by 1000 when above 1000 (millidegrees), then
    subtract 273 when above 223 (kelvin).  The division only happens on a
    positive operand, where C truncating division and Lean division agree. -/
def normalize_temperature (temperature : Int) : Int :=
  let temperature := if temperature > 1000 then temperature / 1000 else temperature
  if temperature > 223 then temperature - 273 else temperature

/-- The downward ratchet loop of receive_temperature_response
    (lines 208-212): while the status is above Normal and the temperature
    is below the current band's min, decrement the status. -/
def status_down_loop (conf : thermal_object_configuration_t)
    (temperature : Int) : Nat → Nat
  | 0 => 0
  | status + 1 =>
    if temperature < (conf.state (status + 1)).min then
      status_down_loop conf temperature status
    else
      status + 1

/-- The upward ratchet loop of receive_temperature_response
    (lines 214-218), with explicit fuel: while the status is below Fatal
    and the temperature is above the current band's max, increment the
    status.  Fuel 3 is enough for every start status: each iteration
    requires status < 3 and increments it, so at most 3 iterations run. -/
def status_up_loop (conf : thermal_object_configuration_t)
    (temperature : Int) : Nat → Nat → Nat
  | 0, status => status
  | fuel + 1, status =>
    if status < THERMAL_STATUS_FATAL ∧ (conf.state status).max < temperature then
      status_up_loop conf temperature fuel (status + 1)
    else
      status

/-- The status-classification ratchet of receive_temperature_response
    (lines 206-219), acting on an already-normalized temperature. -/
def classify_status (conf : thermal_object_configuration_t)
    (temperature : Int) (status : Nat) : Nat :=
  if temperature < (conf.state status).min then
    status_down_loop conf temperature status
  else if (conf.state status).max < temperature then
    status_up_loop conf temperature 3 status
  else
    status

/-- Classification of a raw reading: unit normalization followed by the
    ratchet, exactly as receive_temperature_response performs them. -/
def classify_reading (conf : thermal_object_configuration_t)
    (temperature : Int) (status : Nat) : Nat :=
  classify_status conf (normalize_temperature temperature) status

/-- A 4-band configuration has contiguous increasing ranges when each
    band's range is nonempty and each band's max ties to the next band's
    min. -/
def contiguous_increasing (conf : thermal_object_configuration_t) : Prop :=
  (∀ i, i < 4 → (conf.state i).min ≤ (conf.state i).max) ∧
  (∀ i, i < 3 → (conf.state (i + 1)).min = (conf.state i).max + 1)

instance (conf : thermal_object_configuration_t) :
    Decidable (contiguous_increasing conf) := by
  unfold contiguous_increasing
  infer_instance

/-- The hysteresis ladder configuration of the spec: Normal=[0,39],
    Warning=[40,59], Alert=[60,79], Fatal=[80,999], with some
    mintime/maxtime per band. -/
def ladder_config : thermal_object_configuration_t :=
  { name := "surface"
    state0 := { min := 0, max := 39, mintime := 60, maxtime := 120 }
    state1 := { min := 40, max := 59, mintime := 30, maxtime := 60 }
    state2 := { min := 60, max := 79, mintime := 15, maxtime := 30 }
    state3 := { min := 80, max := 999, mintime := 5, maxtime := 10 } }

/-- A contiguous increasing configuration whose Alert band reaches up to
    150: Normal=[0,39], Warning=[40,59], Alert=[60,150], Fatal=[151,999]. -/
def wide_alert_config : thermal_object_configuration_t :=
  { name := "core"
    state0 := { min := 0, max := 39, mintime := 60, maxtime := 120 }
    state1 := { min := 40, max := 59, mintime := 30, maxtime := 60 }
    state2 := { min := 60, max := 150, mintime := 15, maxtime := 30 }
    state3 := { min := 151, max := 999, mintime := 5, maxtime := 10 } }

/-- A single registered object at band Normal with an in-flight request,
    used as a concrete test fixture. -/
def sample_object : thermal_object_t :=
  { conf := ladder_config, status := 0, request_pending := true }

/-- Lowercase status names (current_status_name, lines 83-90). -/
def thermal_status_name : Nat → String
  | 0 => "normal"
  | 1 => "warning"
  | 2 => "alert"
  | _ => "fatal"

/-- Ordinal maximum over the registered objects' statuses, starting from
    Normal (worst_current_thermal_object_status, lines 92-104). -/
def worst_current_thermal_object_status (objects : List thermal_object_t) : Nat :=
  objects.foldl
    (fun status obj => if obj.status > status then obj.status else status)
    THERMAL_STATUS_NORMAL

/-- Observable actions of the thermal manager: the D-Bus status-change
    signal, the internal DSM_MSGTYPE_SET_THERMAL_STATE broadcast
    (send_overheat_status), a call into a sensor's request_temperature
    capability, and the internal DSM_MSGTYPE_WAIT broadcast that re-arms
    the heartbeat wake for an object. -/
inductive Event where
  | dbusSignal (payload : String)
  | setThermalState (overheated : Bool)
  | temperatureRequest (index : Nat)
  | waitRequest (mintime maxtime : Int) (index : Nat)
deriving Repr, DecidableEq

/-- Whether an event is the heartbeat re-arm broadcast. -/
def Event.isWait : Event → Bool
  | .waitRequest _ _ _ => true
  | _ => false

/-- Mutable module state of thermalmanager.c: the registered objects, the
    global current_status, and the sticky overheated flag that is a static
    local of send_thermal_indication. -/
structure ThermalManagerState where
  thermal_objects : List thermal_object_t
  current_status : Nat
  overheated : Bool
deriving Repr, DecidableEq

/-- Module state with the single sample object registered, aggregate
    normal and the sticky flag clear, used as a concrete test fixture. -/
def sample_state : ThermalManagerState :=
  { thermal_objects := [sample_object], current_status := 0, overheated := false }

/-- The indication path (send_thermal_indication, lines 116-143): emit the
    D-Bus signal with the lowercase name of current_status, then either
    broadcast overheated=true when current_status is Fatal, or broadcast
    overheated=false when the sticky flag was set, else nothing.  Returns
    the new sticky flag and the emitted events in order. -/
def send_thermal_indication (current_status : Nat) (overheated : Bool) :
    Bool × List Event :=
  let sig := Event.dbusSignal (thermal_status_name current_status)
  if current_status = THERMAL_STATUS_FATAL then
    (true, [sig, Event.setThermalState true])
  else if overheated then
    (false, [sig, Event.setThermalState false])
  else
    (overheated, [sig])

/-- The reading-completion callback (receive_temperature_response,
    lines 168-238) for the object at position i: clear request_pending;
    on the failure sentinel -1 do nothing else; otherwise normalize,
    ratchet the status, and when the object's status changed recompute the
    aggregate and indicate when the aggregate changed. -/
def receive_temperature_response (st : ThermalManagerState) (i : Nat)
    (temperature : Int) : ThermalManagerState × List Event :=
  let obj := st.thermal_objects.getD i default
  let obj := { obj with request_pending := false }
  let st1 := { st with thermal_objects := st.thermal_objects.set i obj }
  if temperature = -1 then
    (st1, [])
  else
    let previous_status := obj.status
    let new_status := classify_status obj.conf (normalize_temperature temperature)
        previous_status
    let obj := { obj with status := new_status }
    let st2 := { st1 with thermal_objects := st1.thermal_objects.set i obj }
    if new_status ≠ previous_status then
      let previously_indicated_status := st2.current_status
      let current_status := worst_current_thermal_object_status st2.thermal_objects
      let st3 := { st2 with current_status := current_status }
      if current_status ≠ previously_indicated_status then
        let r := send_thermal_indication current_status st3.overheated
        ({ st3 with overheated := r.1 }, r.2)
      else
        (st3, [])
    else
      (st2, [])

/-- Modelled from the spec: the sensor's request_temperature capability is
    not part of this repository (each sensor plugin supplies it).  Per the
    spec it either rejects the request outright, or accepts it and invokes
    the completion callback exactly once with a reading or the failure
    sentinel; acceptance delivers the completion before control returns to
    the caller, which realizes the spec's same-call-stack ordering
    guarantee between completion and re-arm. -/
inductive Capability where
  | rejected
  | accepted (reading : Int)
deriving Repr, DecidableEq

/-- The poll-request path (send_temperature_request, lines 145-166) for
    the object at position i: when no request is pending, set
    request_pending and invoke the capability; a rejected request clears
    request_pending again; an accepted request delivers the completion
    callback.  When a request is already pending, only log. -/
def send_temperature_request (st : ThermalManagerState) (i : Nat)
    (cap : Capability) : ThermalManagerState × List Event :=
  let obj := st.thermal_objects.getD i default
  if !obj.request_pending then
    let obj := { obj with request_pending := true }
    let stReq := { st with thermal_objects := st.thermal_objects.set i obj }
    match cap with
    | .rejected =>
      let obj := { obj with request_pending := false }
      ({ stReq with thermal_objects := stReq.thermal_objects.set i obj },
       [Event.temperatureRequest i])
    | .accepted reading =>
      let r := receive_temperature_response stReq i reading
      (r.1, Event.temperatureRequest i :: r.2)
  else
    (st, [])

/-- The poll-cycle entry point (thermal_object_polling_interval_expired,
    lines 240-257): issue the temperature request, then broadcast one
    DSM_MSGTYPE_WAIT carrying the mintime/maxtime of the object's current
    (post-completion) band. -/
def thermal_object_polling_interval_expired (st : ThermalManagerState)
    (i : Nat) (cap : Capability) : ThermalManagerState × List Event :=
  let r := send_temperature_request st i cap
  let obj := r.1.thermal_objects.getD i default
  let conf := obj.conf.state obj.status
  (r.1, r.2 ++ [Event.waitRequest conf.mintime conf.maxtime i])

/-- Field update new_config.state[i] := band inside the tuning-read loop. -/
def set_state_band (conf : thermal_object_configuration_t) (i : Nat)
    (band : thermal_status_configuration_t) : thermal_object_configuration_t :=
  match i with
  | 0 => { conf with state0 := band }
  | 1 => { conf with state1 := band }
  | 2 => { conf with state2 := band }
  | _ => { conf with state3 := band }

/-- The tuning-read loop of thermal_object_config_read (lines 387-399),
    with explicit fuel (4 covers the loop bound THERMAL_STATUS_COUNT).
    Each fscanf call is embedded as the i-th entry of the list: none when
    the line fails to parse as three comma-separated integers, some
    (min, max, mintime) when it parses.  A parse failure breaks out with
    success = false; a parsed line stores min, max, mintime and derives
    maxtime = mintime + 10. -/
def config_read_loop (lines : List (Option (Int × Int × Int))) :
    Nat → Nat → thermal_object_configuration_t →
    Bool × thermal_object_configuration_t
  | 0, _, new_config => (true, new_config)
  | fuel + 1, i, new_config =>
    if i < 4 then
      match lines.getD i none with
      | none => (false, new_config)
      | some x =>
        config_read_loop lines fuel (i + 1)
          (set_state_band new_config i
            { min := x.1, max := x.2.1, mintime := x.2.2, maxtime := x.2.2 + 10 })
    else
      (true, new_config)

/-- Tuning reload (thermal_object_config_read, lines 377-406): run the
    read loop on a private copy and commit it only on success, so a parse
    failure leaves the configuration exactly as it was. -/
def thermal_object_config_read (config : thermal_object_configuration_t)
    (lines : List (Option (Int × Int × Int))) :
    Bool × thermal_object_configuration_t :=
  let r := config_read_loop lines 4 0 config
  if r.1 then (true, r.2) else (false, config)

/-- Observable actions of tempreaper.c: forking the reaper process and
    registering the child watch for it. -/
inductive ReaperAction where
  | spawn
  | childWatchAdd (pid : Int)
deriving Repr, DecidableEq

/-- Mount-path test of tempreaper.c (disk_space_running_out,
    lines 121-129): the reaper runs only for the root partition. -/
def disk_space_running_out (mount_path : String) : Bool :=
  mount_path = "/"

/-- The DSM_MSGTYPE_DISK_SPACE handler of tempreaper.c (lines 131-146):
    when a reaper is already running (reaper_pid not -1) do nothing; when
    the mount path is the root partition, fork the reaper (fork_result is
    the pid fork returns, -1 on failure) and add a child watch when the
    fork succeeded.  Returns the new reaper_pid and the actions taken. -/
def handle_disk_space (reaper_pid : Int) (mount_path : String)
    (fork_result : Int) : Int × List ReaperAction :=
  if reaper_pid ≠ -1 then
    (reaper_pid, [])
  else if disk_space_running_out mount_path then
    (fork_result,
     if fork_result ≠ -1 then
       [ReaperAction.spawn, ReaperAction.childWatchAdd fork_result]
     else
       [ReaperAction.spawn])
  else
    (reaper_pid, [])

/-- The downward loop never moves above the starting band. -/
theorem status_down_loop_le (conf : thermal_object_configuration_t)
    (t : Int) (s : Nat) : status_down_loop conf t s ≤ s := by
  induction s with
  | zero => simp [status_down_loop]
  | succ n ih =>
    simp only [status_down_loop]
    split
    · exact le_trans ih (Nat.le_succ n)
    · exact le_refl _

/-- The downward loop stops at Normal or at a band whose min the
    temperature no longer undercuts. -/
theorem status_down_loop_stop (conf : thermal_object_configuration_t)
    (t : Int) (s : Nat) :
    status_down_loop conf t s = 0 ∨
      (conf.state (status_down_loop conf t s)).min ≤ t := by
  induction s with
  | zero => left; simp [status_down_loop]
  | succ n ih =>
    simp only [status_down_loop]
    split
    · exact ih
    · right; omega

/-- The downward loop is monotone in the temperature. -/
theorem status_down_loop_mono (conf : thermal_object_configuration_t)
    {t1 t2 : Int} (h : t1 ≤ t2) (s : Nat) :
    status_down_loop conf t1 s ≤ status_down_loop conf t2 s := by
  induction s with
  | zero => simp [status_down_loop]
  | succ n ih =>
    simp only [status_down_loop]
    split
    · split
      · exact ih
      · exact le_trans (status_down_loop_le conf t1 n) (Nat.le_succ n)
    · split
      · omega
      · exact le_refl _

/-- The upward loop never moves below the starting band. -/
theorem status_up_loop_ge (conf : thermal_object_configuration_t)
    (t : Int) (fuel : Nat) : ∀ s, s ≤ status_up_loop conf t fuel s := by
  induction fuel with
  | zero => intro s; simp [status_up_loop]
  | succ n ih =>
    intro s
    simp only [status_up_loop]
    split
    · exact le_trans (Nat.le_succ s) (ih (s + 1))
    · exact le_refl _

/-- The upward loop never moves above Fatal. -/
theorem status_up_loop_le (conf : thermal_object_configuration_t)
    (t : Int) (fuel : Nat) :
    ∀ s, s ≤ 3 → status_up_loop conf t fuel s ≤ 3 := by
  induction fuel with
  | zero => intro s hs; simpa [status_up_loop] using hs
  | succ n ih =>
    intro s hs
    simp only [status_up_loop]
    split
    · rename_i h
      simp only [THERMAL_STATUS_FATAL] at h
      exact ih (s + 1) (by omega)
    · exact hs

/-- With enough fuel the upward loop stops at Fatal or at a band whose max
    the temperature no longer exceeds. -/
theorem status_up_loop_stop (conf : thermal_object_configuration_t)
    (t : Int) (fuel : Nat) :
    ∀ s, s ≤ 3 → 3 ≤ s + fuel →
      status_up_loop conf t fuel s = 3 ∨
        t ≤ (conf.state (status_up_loop conf t fuel s)).max := by
  induction fuel with
  | zero =>
    intro s hs hf
    left
    simp only [status_up_loop]
    omega
  | succ n ih =>
    intro s hs hf
    simp only [status_up_loop]
    split
    · rename_i h
      simp only [THERMAL_STATUS_FATAL] at h
      exact ih (s + 1) (by omega) (by omega)
    · rename_i h
      simp only [THERMAL_STATUS_FATAL] at h
      push_neg at h
      rcases Nat.lt_or_ge s 3 with h3 | h3
      · right; exact h h3
      · left; omega

/-- The upward loop is monotone in the temperature. -/
theorem status_up_loop_mono (conf : thermal_object_configuration_t)
    {t1 t2 : Int} (h : t1 ≤ t2) (fuel : Nat) :
    ∀ s, status_up_loop conf t1 fuel s ≤ status_up_loop conf t2 fuel s := by
  induction fuel with
  | zero => intro s; simp [status_up_loop]
  | succ n ih =>
    intro s
    simp only [status_up_loop]
    split
    · split
      · exact ih (s + 1)
      · rename_i h1 h2
        exact absurd ⟨h1.1, lt_of_lt_of_le h1.2 h⟩ h2
    · split
      · exact le_trans (Nat.le_succ s) (status_up_loop_ge conf t2 n (s + 1))
      · exact le_refl _

/-- Classification keeps the status within the four bands. -/
theorem classify_status_le (conf : thermal_object_configuration_t)
    (t : Int) {s : Nat} (hs : s ≤ 3) : classify_status conf t s ≤ 3 := by
  unfold classify_status
  split
  · exact le_trans (status_down_loop_le conf t s) hs
  · split
    · exact status_up_loop_le conf t 3 s hs
    · exact hs

/-- Claim C1: classification is a ratchet from the current band.  For a
    starting band within range and a 4-band configuration with contiguous
    increasing ranges: when the normalized temperature is below the
    current band's min the result only moves downward and stops at Normal
    or at a band whose min it meets; when it is above the current band's
    max the result only moves upward and stops at Fatal or at a band
    whose max it respects; an in-range temperature does not move the
    band; and on the spec's ladder a reading of 95 from Normal yields
    Fatal in one call. -/
theorem thermal_C1_ratchet (conf : thermal_object_configuration_t)
    (t : Int) (s : Nat) (hs : s ≤ 3) (hc : contiguous_increasing conf) :
    (t < (conf.state s).min →
      classify_status conf t s ≤ s ∧
        (classify_status conf t s = 0 ∨
          (conf.state (classify_status conf t s)).min ≤ t))
    ∧ ((conf.state s).max < t →
      s ≤ classify_status conf t s ∧
        (classify_status conf t s = 3 ∨
          t ≤ (conf.state (classify_status conf t s)).max))
    ∧ ((conf.state s).min ≤ t → t ≤ (conf.state s).max →
      classify_status conf t s = s)
    ∧ classify_reading ladder_config 95 THERMAL_STATUS_NORMAL =
        THERMAL_STATUS_FATAL := by
  refine ⟨?_, ?_, ?_, by decide⟩
  · intro hlt
    unfold classify_status
    rw [if_pos hlt]
    exact ⟨status_down_loop_le conf t s, status_down_loop_stop conf t s⟩
  · intro hgt
    have hmin : (conf.state s).min ≤ (conf.state s).max := hc.1 s (by omega)
    unfold classify_status
    rw [if_neg (by omega), if_pos hgt]
    exact ⟨status_up_loop_ge conf t 3 s,
           status_up_loop_stop conf t 3 s hs (by omega)⟩
  · intro h1 h2
    unfold classify_status
    rw [if_neg (by omega), if_neg (by omega)]

/-- Witness for claim C1 at the ladder configuration, band Normal and a
    reading of 95. -/
theorem thermal_C1_ratchet_witness :
    (0 ≤ 3 ∧ contiguous_increasing ladder_config)
    ∧ (((95 : Int) < (ladder_config.state 0).min →
        classify_status ladder_config 95 0 ≤ 0 ∧
          (classify_status ladder_config 95 0 = 0 ∨
            (ladder_config.state (classify_status ladder_config 95 0)).min ≤ 95))
      ∧ ((ladder_config.state 0).max < 95 →
        0 ≤ classify_status ladder_config 95 0 ∧
          (classify_status ladder_config 95 0 = 3 ∨
            (95 : Int) ≤ (ladder_config.state (classify_status ladder_config 95 0)).max))
      ∧ ((ladder_config.state 0).min ≤ 95 → (95 : Int) ≤ (ladder_config.state 0).max →
        classify_status ladder_config 95 0 = 0)
      ∧ classify_reading ladder_config 95 THERMAL_STATUS_NORMAL =
          THERMAL_STATUS_FATAL) :=
  ⟨⟨by decide, by decide⟩,
   thermal_C1_ratchet ladder_config 95 0 (by decide) (by decide)⟩

/-- Counterexample to claim C2's consequence: on the spec's ladder
    configuration, classifying raw reading 1500000 from band Normal yields
    Fatal (its normalized value is 1500000/1000 - 273 = 1227), while
    classifying raw reading 1500 yields Normal (its normalized value is
    1500/1000 = 1), so the two raw readings do not behave identically. -/
theorem thermal_C2_counterexample :
    classify_reading ladder_config 1500000 THERMAL_STATUS_NORMAL =
        THERMAL_STATUS_FATAL
    ∧ classify_reading ladder_config 1500 THERMAL_STATUS_NORMAL =
        THERMAL_STATUS_NORMAL
    ∧ classify_reading ladder_config 1500000 THERMAL_STATUS_NORMAL ≠
        classify_reading ladder_config 1500 THERMAL_STATUS_NORMAL := by
  decide

/-- Claim C2 as amended: the two normalization rules apply in order, each
    at most once — a reading above 1000 is divided by 1000 exactly once
    and the Kelvin rule is then applied to the divided value, a reading at
    most 1000 is never divided — and consequently classifying raw reading
    1500000 behaves identically, for every starting band and
    configuration, to classifying with the once-divided value 1500 run
    through the remaining Kelvin rule, i.e. with normalized temperature
    1500 - 273; it does not behave identically to classifying raw reading
    1500, whose normalized value is 1500/1000 = 1. -/
theorem thermal_C2_amended :
    (∀ t : Int, 1000 < t →
      normalize_temperature t =
        if 223 < t / 1000 then t / 1000 - 273 else t / 1000)
    ∧ (∀ t : Int, t ≤ 1000 →
      normalize_temperature t = if 223 < t then t - 273 else t)
    ∧ (∀ (conf : thermal_object_configuration_t) (s : Nat),
      classify_reading conf 1500000 s = classify_status conf (1500 - 273) s)
    ∧ normalize_temperature 1500000 = 1500 - 273
    ∧ normalize_temperature 1500 = 1 := by
  refine ⟨?_, ?_, ?_, by decide, by decide⟩
  · intro t ht
    simp only [normalize_temperature]
    rw [if_pos ht]
  · intro t ht
    simp only [normalize_temperature]
    rw [if_neg (show ¬1000 < t by omega)]
  · intro conf s
    unfold classify_reading
    rw [(by decide : normalize_temperature 1500000 = 1500 - 273)]

/-- Witness for the amended claim C2 at reading 1500000 and the ladder
    configuration. -/
theorem thermal_C2_amended_witness :
    (1000 : Int) < 1500000
    ∧ normalize_temperature 1500000 =
        (if 223 < (1500000 : Int) / 1000 then (1500000 : Int) / 1000 - 273
         else (1500000 : Int) / 1000)
    ∧ classify_reading ladder_config 1500000 0 =
        classify_status ladder_config (1500 - 273) 0 :=
  ⟨by decide, thermal_C2_amended.1 1500000 (by decide),
   thermal_C2_amended.2.2.1 ladder_config 0⟩

/-- Counterexample to claim C9 as stated over raw readings: on a
    contiguous increasing configuration with Alert reaching up to 150,
    raw readings 500 < 100000 both force upward movement from band
    Normal (500 normalizes to 227, 100000 normalizes to 100), yet the
    resulting band for the larger raw reading is Alert, strictly below
    the Fatal resulting from the smaller raw reading. -/
theorem thermal_C9_counterexample :
    (500 : Int) < 100000
    ∧ THERMAL_STATUS_NORMAL <
        classify_reading wide_alert_config 500 THERMAL_STATUS_NORMAL
    ∧ THERMAL_STATUS_NORMAL <
        classify_reading wide_alert_config 100000 THERMAL_STATUS_NORMAL
    ∧ classify_reading wide_alert_config 100000 THERMAL_STATUS_NORMAL <
        classify_reading wide_alert_config 500 THERMAL_STATUS_NORMAL := by
  decide

/-- Claim C9 as amended: monotonicity holds in the normalized
    temperature.  For normalized temperatures t1 < t2 that force movement
    in the same direction from the same starting band — both below the
    band's min, or both taking the upward branch — the resulting band for
    t2 is at least the resulting band for t1. -/
theorem thermal_C9_amended (conf : thermal_object_configuration_t)
    (s : Nat) (t1 t2 : Int) (h12 : t1 < t2) :
    (t2 < (conf.state s).min →
      classify_status conf t1 s ≤ classify_status conf t2 s)
    ∧ ((conf.state s).min ≤ t1 → (conf.state s).max < t1 →
      classify_status conf t1 s ≤ classify_status conf t2 s) := by
  constructor
  · intro h2
    unfold classify_status
    rw [if_pos (by omega), if_pos h2]
    exact status_down_loop_mono conf (le_of_lt h12) s
  · intro hmin hmax
    unfold classify_status
    rw [if_neg (by omega), if_pos hmax, if_neg (by omega), if_pos (by omega)]
    exact status_up_loop_mono conf (le_of_lt h12) 3 s

/-- Witness for the amended claim C9 on the ladder configuration, band
    Warning, normalized temperatures -5 < -1. -/
theorem thermal_C9_amended_witness :
    (-5 : Int) < -1
    ∧ (((-1 : Int) < (ladder_config.state 1).min →
        classify_status ladder_config (-5) 1 ≤ classify_status ladder_config (-1) 1)
      ∧ ((ladder_config.state 1).min ≤ -5 → (ladder_config.state 1).max < -5 →
        classify_status ladder_config (-5) 1 ≤ classify_status ladder_config (-1) 1)) :=
  ⟨by decide, thermal_C9_amended ladder_config 1 (-5) (-1) (by decide)⟩

/-- The status fold of worst_current_thermal_object_status only grows its
    accumulator. -/
theorem worst_foldl_ge (objects : List thermal_object_t) :
    ∀ a : Nat,
      a ≤ objects.foldl
        (fun status obj => if obj.status > status then obj.status else status) a := by
  induction objects with
  | nil => intro a; simp
  | cons o l ih =>
    intro a
    simp only [List.foldl_cons]
    refine le_trans ?_ (ih _)
    split <;> omega

/-- The status fold dominates the status of every listed object. -/
theorem worst_foldl_mem (objects : List thermal_object_t) :
    ∀ (a : Nat) (o : thermal_object_t), o ∈ objects →
      o.status ≤ objects.foldl
        (fun status obj => if obj.status > status then obj.status else status) a := by
  induction objects with
  | nil => intro a o h; simp at h
  | cons p l ih =>
    intro a o h
    rcases List.mem_cons.mp h with rfl | h'
    · simp only [List.foldl_cons]
      refine le_trans ?_ (worst_foldl_ge l _)
      split <;> omega
    · exact ih _ o h'

/-- The status fold stays below any bound dominating the accumulator and
    all listed statuses. -/
theorem worst_foldl_le (objects : List thermal_object_t) :
    ∀ a n : Nat, a ≤ n → (∀ o ∈ objects, o.status ≤ n) →
      objects.foldl
        (fun status obj => if obj.status > status then obj.status else status) a ≤ n := by
  induction objects with
  | nil => intro a n ha _; simpa using ha
  | cons p l ih =>
    intro a n ha h
    simp only [List.foldl_cons]
    refine ih _ n ?_ (fun o ho => h o (List.mem_cons_of_mem p ho))
    have hp : p.status ≤ n := h p (List.mem_cons_self p l)
    split <;> omega

/-- The aggregate dominates every registered object's status. -/
theorem worst_current_ge (objects : List thermal_object_t) :
    ∀ o ∈ objects, o.status ≤ worst_current_thermal_object_status objects :=
  fun o ho => worst_foldl_mem objects THERMAL_STATUS_NORMAL o ho

/-- The aggregate stays within the four bands when all object statuses
    do. -/
theorem worst_current_le (objects : List thermal_object_t)
    (h : ∀ o ∈ objects, o.status ≤ 3) :
    worst_current_thermal_object_status objects ≤ 3 :=
  worst_foldl_le objects THERMAL_STATUS_NORMAL 3 (by decide) h

/-- The indication path always emits the D-Bus signal carrying the
    lowercase name of the current status. -/
theorem send_thermal_indication_signal (c : Nat) (o : Bool) :
    Event.dbusSignal (thermal_status_name c) ∈ (send_thermal_indication c o).2 := by
  unfold send_thermal_indication
  split
  · simp
  · split <;> simp

/-- The indication path emits no heartbeat re-arm broadcasts. -/
theorem send_thermal_indication_no_wait (c : Nat) (o : Bool) :
    ∀ e ∈ (send_thermal_indication c o).2, e.isWait = false := by
  intro e he
  unfold send_thermal_indication at he
  split at he
  · rcases List.mem_cons.mp he with rfl | he'
    · rfl
    · rcases List.mem_cons.mp he' with rfl | he''
      · rfl
      · simp at he''
  · split at he
    · rcases List.mem_cons.mp he with rfl | he'
      · rfl
      · rcases List.mem_cons.mp he' with rfl | he''
        · rfl
        · simp at he''
    · rcases List.mem_cons.mp he with rfl | he'
      · rfl
      · simp at he'

/-- The reading-completion callback at the failure sentinel only clears
    the in-flight flag: no classification, no recompute, no events. -/
theorem receive_eq_failure (st : ThermalManagerState) (i : Nat) :
    receive_temperature_response st i (-1) =
      ({ st with
          thermal_objects := st.thermal_objects.set i
              { st.thermal_objects.getD i default with request_pending := false } },
       []) := by
  simp [receive_temperature_response]

/-- The reading-completion callback when the ratchet leaves the object's
    band unchanged: only the in-flight flag is cleared, the aggregate is
    not recomputed and no event is emitted. -/
theorem receive_eq_unchanged (st : ThermalManagerState) (i : Nat)
    (temperature : Int) (h_t : temperature ≠ -1)
    (h_same : classify_status (st.thermal_objects.getD i default).conf
        (normalize_temperature temperature)
        (st.thermal_objects.getD i default).status
      = (st.thermal_objects.getD i default).status) :
    receive_temperature_response st i temperature =
      ({ st with
          thermal_objects := st.thermal_objects.set i
              { st.thermal_objects.getD i default with request_pending := false } },
       []) := by
  simp only [List.getD_eq_getElem?_getD] at h_same
  simp [receive_temperature_response, List.set_set, h_t, h_same,
    List.getD_eq_getElem?_getD]

/-- The reading-completion callback when the ratchet changes the object's
    band but the recomputed aggregate equals the previously indicated
    one: the object is updated, the aggregate is recomputed to the same
    value and no event is emitted. -/
theorem receive_eq_changed_same_agg (st : ThermalManagerState) (i : Nat)
    (temperature : Int) (h_t : temperature ≠ -1)
    (h_diff : classify_status (st.thermal_objects.getD i default).conf
        (normalize_temperature temperature)
        (st.thermal_objects.getD i default).status
      ≠ (st.thermal_objects.getD i default).status)
    (h_agg : worst_current_thermal_object_status
        (st.thermal_objects.set i
          ({ st.thermal_objects.getD i default with
            request_pending := false,
            status := classify_status (st.thermal_objects.getD i default).conf
              (normalize_temperature temperature)
              (st.thermal_objects.getD i default).status }))
      = st.current_status) :
    receive_temperature_response st i temperature =
      ({ st with
          thermal_objects := st.thermal_objects.set i
              ({ st.thermal_objects.getD i default with
                request_pending := false,
                status := classify_status (st.thermal_objects.getD i default).conf
                  (normalize_temperature temperature)
                  (st.thermal_objects.getD i default).status }) },
       []) := by
  simp only [List.getD_eq_getElem?_getD] at h_diff h_agg
  simp [receive_temperature_response, List.set_set, h_t, h_diff, h_agg,
    List.getD_eq_getElem?_getD]

/-- The reading-completion callback when the ratchet changes the object's
    band and the recomputed aggregate differs from the previously
    indicated one: the object is updated, the aggregate is recomputed and
    the indication path runs on it. -/
theorem receive_eq_changed_diff_agg (st : ThermalManagerState) (i : Nat)
    (temperature : Int) (h_t : temperature ≠ -1)
    (h_diff : classify_status (st.thermal_objects.getD i default).conf
        (normalize_temperature temperature)
        (st.thermal_objects.getD i default).status
      ≠ (st.thermal_objects.getD i default).status)
    (h_agg : worst_current_thermal_object_status
        (st.thermal_objects.set i
          ({ st.thermal_objects.getD i default with
            request_pending := false,
            status := classify_status (st.thermal_objects.getD i default).conf
              (normalize_temperature temperature)
              (st.thermal_objects.getD i default).status }))
      ≠ st.current_status) :
    receive_temperature_response st i temperature =
      ({ thermal_objects := st.thermal_objects.set i
          ({ st.thermal_objects.getD i default with
            request_pending := false,
            status := classify_status (st.thermal_objects.getD i default).conf
              (normalize_temperature temperature)
              (st.thermal_objects.getD i default).status }),
         current_status := worst_current_thermal_object_status
          (st.thermal_objects.set i
            ({ st.thermal_objects.getD i default with
              request_pending := false,
              status := classify_status (st.thermal_objects.getD i default).conf
                (normalize_temperature temperature)
                (st.thermal_objects.getD i default).status })),
         overheated := (send_thermal_indication
          (worst_current_thermal_object_status
            (st.thermal_objects.set i
              { st.thermal_objects.getD i default with
                request_pending := false,
                status := classify_status (st.thermal_objects.getD i default).conf
                  (normalize_temperature temperature)
                  (st.thermal_objects.getD i default).status }))
          st.overheated).1 },
       (send_thermal_indication
        (worst_current_thermal_object_status
          (st.thermal_objects.set i
            ({ st.thermal_objects.getD i default with
              request_pending := false,
              status := classify_status (st.thermal_objects.getD i default).conf
                (normalize_temperature temperature)
                (st.thermal_objects.getD i default).status })))
        st.overheated).2) := by
  simp only [List.getD_eq_getElem?_getD] at h_diff h_agg
  simp [receive_temperature_response, List.set_set, h_t, h_diff, h_agg,
    List.getD_eq_getElem?_getD]

/-- Every status maps to one of the four lowercase band names. -/
theorem thermal_status_name_mem (n : Nat) :
    thermal_status_name n ∈ (["normal", "warning", "alert", "fatal"] : List String) := by
  match n with
  | 0 => simp [thermal_status_name]
  | 1 => simp [thermal_status_name]
  | 2 => simp [thermal_status_name]
  | m + 3 => simp [thermal_status_name]

/-- The reading-completion callback emits no heartbeat re-arm
    broadcasts. -/
theorem receive_temperature_response_no_wait (st : ThermalManagerState)
    (i : Nat) (t : Int) :
    ∀ e ∈ (receive_temperature_response st i t).2, e.isWait = false := by
  by_cases h_t : t = -1
  · subst h_t
    rw [receive_eq_failure]
    simp
  · by_cases h_change : classify_status (st.thermal_objects.getD i default).conf
        (normalize_temperature t) (st.thermal_objects.getD i default).status
      ≠ (st.thermal_objects.getD i default).status
    · by_cases h_agg : worst_current_thermal_object_status
          (st.thermal_objects.set i
            ({ st.thermal_objects.getD i default with
              request_pending := false,
              status := classify_status (st.thermal_objects.getD i default).conf
                (normalize_temperature t)
                (st.thermal_objects.getD i default).status }))
        = st.current_status
      · rw [receive_eq_changed_same_agg st i t h_t h_change h_agg]
        simp
      · rw [receive_eq_changed_diff_agg st i t h_t h_change h_agg]
        intro e he
        exact send_thermal_indication_no_wait _ _ e he
    · rw [receive_eq_unchanged st i t h_t (not_not.mp h_change)]
      simp

/-- The poll-request path emits no heartbeat re-arm broadcasts. -/
theorem send_temperature_request_no_wait (st : ThermalManagerState)
    (i : Nat) (cap : Capability) :
    ∀ e ∈ (send_temperature_request st i cap).2, e.isWait = false := by
  intro e he
  unfold send_temperature_request at he
  by_cases h_p : (st.thermal_objects.getD i default).request_pending
  · simp only [List.getD_eq_getElem?_getD] at h_p
    rw [if_neg (by simp [h_p])] at he
    simp at he
  · simp only [List.getD_eq_getElem?_getD] at h_p
    rw [if_pos (by simp [h_p])] at he
    cases cap with
    | rejected =>
      simp only [List.mem_singleton] at he
      subst he
      rfl
    | accepted reading =>
      simp only [List.mem_cons] at he
      rcases he with rfl | he'
      · rfl
      · exact receive_temperature_response_no_wait _ i reading e he'

/-- Claim C3: when a reading changes an object's band, the aggregate is
    recomputed as the ordinal maximum of all registered objects'
    statuses, the status-change signal carrying the new aggregate's
    lowercase band name (one of the four) is emitted exactly when the
    recomputed aggregate differs from the previously indicated one, and
    nothing is emitted when the aggregate is unchanged. -/
theorem thermal_C3_aggregate_signal (st : ThermalManagerState) (i : Nat)
    (temperature : Int) (h_t : temperature ≠ -1)
    (h_change : classify_status (st.thermal_objects.getD i default).conf
        (normalize_temperature temperature)
        (st.thermal_objects.getD i default).status
      ≠ (st.thermal_objects.getD i default).status) :
    (receive_temperature_response st i temperature).1.current_status =
        worst_current_thermal_object_status
          (receive_temperature_response st i temperature).1.thermal_objects
    ∧ (∀ o ∈ (receive_temperature_response st i temperature).1.thermal_objects,
        o.status ≤ (receive_temperature_response st i temperature).1.current_status)
    ∧ ((∃ s, Event.dbusSignal s ∈ (receive_temperature_response st i temperature).2)
        ↔ (receive_temperature_response st i temperature).1.current_status ≠
            st.current_status)
    ∧ ((receive_temperature_response st i temperature).1.current_status ≠
          st.current_status →
        Event.dbusSignal (thermal_status_name
            (receive_temperature_response st i temperature).1.current_status) ∈
          (receive_temperature_response st i temperature).2)
    ∧ thermal_status_name
        (receive_temperature_response st i temperature).1.current_status ∈
        (["normal", "warning", "alert", "fatal"] : List String)
    ∧ ((receive_temperature_response st i temperature).1.current_status =
          st.current_status →
        (receive_temperature_response st i temperature).2 = []) := by
  by_cases h_agg : worst_current_thermal_object_status
      (st.thermal_objects.set i
        ({ st.thermal_objects.getD i default with
          request_pending := false,
          status := classify_status (st.thermal_objects.getD i default).conf
            (normalize_temperature temperature)
            (st.thermal_objects.getD i default).status }))
    = st.current_status
  · rw [receive_eq_changed_same_agg st i temperature h_t h_change h_agg]
    refine ⟨h_agg.symm, ?_, by simp, by simp, thermal_status_name_mem _, by simp⟩
    intro o ho
    exact h_agg ▸ worst_current_ge _ o ho
  · rw [receive_eq_changed_diff_agg st i temperature h_t h_change h_agg]
    refine ⟨rfl, ?_, ?_, ?_, thermal_status_name_mem _, ?_⟩
    · intro o ho
      exact worst_current_ge _ o ho
    · simp only []
      constructor
      · intro _
        exact h_agg
      · intro _
        exact ⟨_, send_thermal_indication_signal _ _⟩
    · intro _
      exact send_thermal_indication_signal _ _
    · intro h
      exact absurd h h_agg

/-- Witness for claim C3: one object with the ladder configuration at
    band Normal receiving 95 drives the aggregate from normal to fatal
    and emits the signal. -/
theorem thermal_C3_aggregate_signal_witness :
    ((95 : Int) ≠ -1
      ∧ classify_status
          ((([{ conf := ladder_config, status := 0, request_pending := true }] :
              List thermal_object_t).getD 0 default).conf)
          (normalize_temperature 95)
          ((([{ conf := ladder_config, status := 0, request_pending := true }] :
              List thermal_object_t).getD 0 default).status)
        ≠ (([{ conf := ladder_config, status := 0, request_pending := true }] :
              List thermal_object_t).getD 0 default).status)
    ∧ ((receive_temperature_response
          { thermal_objects :=
              [{ conf := ladder_config, status := 0, request_pending := true }],
            current_status := 0, overheated := false } 0 95).1.current_status =
        worst_current_thermal_object_status
          (receive_temperature_response
            { thermal_objects :=
                [{ conf := ladder_config, status := 0, request_pending := true }],
              current_status := 0, overheated := false } 0 95).1.thermal_objects) := by
  refine ⟨⟨by decide, by decide⟩, ?_⟩
  exact (thermal_C3_aggregate_signal
    { thermal_objects :=
        [{ conf := ladder_config, status := 0, request_pending := true }],
      current_status := 0, overheated := false } 0 95 (by decide) (by decide)).1

/-- Outcomes of the indication path for the overheat broadcast: at Fatal
    it always re-broadcasts overheated=true and sets the sticky flag;
    away from Fatal it broadcasts overheated=false exactly when the flag
    was set, clearing it, and broadcasts nothing when it was clear. -/
theorem send_thermal_indication_cases (c : Nat) (o : Bool) :
    (c = THERMAL_STATUS_FATAL →
      Event.setThermalState true ∈ (send_thermal_indication c o).2 ∧
        (send_thermal_indication c o).1 = true)
    ∧ (c ≠ THERMAL_STATUS_FATAL → o = true →
      Event.setThermalState false ∈ (send_thermal_indication c o).2 ∧
        (send_thermal_indication c o).1 = false)
    ∧ (c ≠ THERMAL_STATUS_FATAL → o = false →
      (∀ b, Event.setThermalState b ∉ (send_thermal_indication c o).2) ∧
        (send_thermal_indication c o).1 = o) := by
  unfold send_thermal_indication
  refine ⟨?_, ?_, ?_⟩
  · intro h
    rw [if_pos h]
    exact ⟨by simp, rfl⟩
  · intro h ho
    rw [if_neg h, if_pos (by simp [ho])]
    exact ⟨by simp, rfl⟩
  · intro h ho
    rw [if_neg h, if_neg (by simp [ho])]
    exact ⟨by intro b; simp, rfl⟩

/-- Claim C4: the overheat broadcast is edge-gated on aggregate
    transitions.  When the aggregate changes to Fatal, overheated=true is
    broadcast and the sticky flag set (re-sent on every such change);
    when it changes to a non-Fatal band with the flag set,
    overheated=false is broadcast and the flag cleared; when it changes
    to a non-Fatal band with the flag clear, no overheat broadcast is
    emitted; and when the aggregate does not change, no overheat
    broadcast is emitted and the flag is unchanged. -/
theorem thermal_C4_overheat_edge (st : ThermalManagerState) (i : Nat)
    (temperature : Int) (h_t : temperature ≠ -1) :
    ((receive_temperature_response st i temperature).1.current_status ≠
        st.current_status →
      (receive_temperature_response st i temperature).1.current_status =
        THERMAL_STATUS_FATAL →
      Event.setThermalState true ∈ (receive_temperature_response st i temperature).2 ∧
        (receive_temperature_response st i temperature).1.overheated = true)
    ∧ ((receive_temperature_response st i temperature).1.current_status ≠
        st.current_status →
      (receive_temperature_response st i temperature).1.current_status ≠
        THERMAL_STATUS_FATAL →
      st.overheated = true →
      Event.setThermalState false ∈ (receive_temperature_response st i temperature).2 ∧
        (receive_temperature_response st i temperature).1.overheated = false)
    ∧ ((receive_temperature_response st i temperature).1.current_status ≠
        st.current_status →
      (receive_temperature_response st i temperature).1.current_status ≠
        THERMAL_STATUS_FATAL →
      st.overheated = false →
      (∀ b, Event.setThermalState b ∉
        (receive_temperature_response st i temperature).2) ∧
        (receive_temperature_response st i temperature).1.overheated = false)
    ∧ ((receive_temperature_response st i temperature).1.current_status =
        st.current_status →
      (∀ b, Event.setThermalState b ∉
        (receive_temperature_response st i temperature).2) ∧
        (receive_temperature_response st i temperature).1.overheated =
          st.overheated) := by
  by_cases h_change : classify_status (st.thermal_objects.getD i default).conf
      (normalize_temperature temperature)
      (st.thermal_objects.getD i default).status
    ≠ (st.thermal_objects.getD i default).status
  · by_cases h_agg : worst_current_thermal_object_status
        (st.thermal_objects.set i
          ({ st.thermal_objects.getD i default with
            request_pending := false,
            status := classify_status (st.thermal_objects.getD i default).conf
              (normalize_temperature temperature)
              (st.thermal_objects.getD i default).status }))
      = st.current_status
    · rw [receive_eq_changed_same_agg st i temperature h_t h_change h_agg]
      exact ⟨fun h => absurd rfl h, fun h => absurd rfl h, fun h => absurd rfl h,
             fun _ => ⟨fun b => by simp, rfl⟩⟩
    · rw [receive_eq_changed_diff_agg st i temperature h_t h_change h_agg]
      refine ⟨?_, ?_, ?_, ?_⟩
      · intro _ hfatal
        exact (send_thermal_indication_cases _ st.overheated).1 hfatal
      · intro _ hfatal ho
        exact (send_thermal_indication_cases _ st.overheated).2.1 hfatal ho
      · intro _ hfatal ho
        have h3 := (send_thermal_indication_cases
          (worst_current_thermal_object_status
            (st.thermal_objects.set i
              ({ st.thermal_objects.getD i default with
                request_pending := false,
                status := classify_status (st.thermal_objects.getD i default).conf
                  (normalize_temperature temperature)
                  (st.thermal_objects.getD i default).status })))
          st.overheated).2.2 hfatal ho
        exact ⟨h3.1, by rw [ho] at h3 ⊢; exact h3.2⟩
      · intro h
        exact absurd h h_agg
  · rw [receive_eq_unchanged st i temperature h_t (not_not.mp h_change)]
    exact ⟨fun h => absurd rfl h, fun h => absurd rfl h, fun h => absurd rfl h,
           fun _ => ⟨fun b => by simp, rfl⟩⟩

/-- Witness for claim C4: the sample state receiving 95 transitions the
    aggregate into Fatal and broadcasts overheated=true. -/
theorem thermal_C4_overheat_edge_witness :
    ((95 : Int) ≠ -1)
    ∧ (Event.setThermalState true ∈
        (receive_temperature_response sample_state 0 95).2 ∧
      (receive_temperature_response sample_state 0 95).1.overheated = true) :=
  ⟨by decide,
   (thermal_C4_overheat_edge sample_state 0 95 (by decide)).1 (by decide) (by decide)⟩

/-- Claim C5: every poll cycle ends, before control returns to the
    external loop and after any synchronously delivered completion
    callback has run, with exactly one heartbeat re-arm broadcast, and
    that broadcast carries the mintime/maxtime window of the object's
    post-classification band. -/
theorem thermal_C5_rearm (st : ThermalManagerState) (i : Nat) (cap : Capability) :
    (thermal_object_polling_interval_expired st i cap).2.filter Event.isWait =
      [Event.waitRequest
        ((((thermal_object_polling_interval_expired st i cap).1.thermal_objects.getD i
            default).conf.state
          ((thermal_object_polling_interval_expired st i cap).1.thermal_objects.getD i
            default).status).mintime)
        ((((thermal_object_polling_interval_expired st i cap).1.thermal_objects.getD i
            default).conf.state
          ((thermal_object_polling_interval_expired st i cap).1.thermal_objects.getD i
            default).status).maxtime)
        i]
    ∧ (thermal_object_polling_interval_expired st i cap).2.getLast? =
      some (Event.waitRequest
        ((((thermal_object_polling_interval_expired st i cap).1.thermal_objects.getD i
            default).conf.state
          ((thermal_object_polling_interval_expired st i cap).1.thermal_objects.getD i
            default).status).mintime)
        ((((thermal_object_polling_interval_expired st i cap).1.thermal_objects.getD i
            default).conf.state
          ((thermal_object_polling_interval_expired st i cap).1.thermal_objects.getD i
            default).status).maxtime)
        i) := by
  have h0 : (send_temperature_request st i cap).2.filter Event.isWait = [] :=
    List.filter_eq_nil_iff.mpr (fun a ha => by
      simp [send_temperature_request_no_wait st i cap a ha])
  constructor
  · simp only [thermal_object_polling_interval_expired]
    rw [List.filter_append, h0]
    simp [Event.isWait]
  · simp only [thermal_object_polling_interval_expired]
    exact List.getLast?_concat _

/-- Claim C6: a completion delivering the failure sentinel -1 leaves the
    object's status, every other object, the aggregate and the sticky
    flag unchanged, clears the in-flight flag, and emits nothing. -/
theorem thermal_C6_failure_sentinel (st : ThermalManagerState) (i : Nat)
    (h_i : i < st.thermal_objects.length) :
    (receive_temperature_response st i (-1)).2 = []
    ∧ (receive_temperature_response st i (-1)).1.current_status = st.current_status
    ∧ (receive_temperature_response st i (-1)).1.overheated = st.overheated
    ∧ ((receive_temperature_response st i (-1)).1.thermal_objects.getD i default).status
        = (st.thermal_objects.getD i default).status
    ∧ ((receive_temperature_response st i (-1)).1.thermal_objects.getD i
        default).request_pending = false
    ∧ ∀ j, j ≠ i →
        (receive_temperature_response st i (-1)).1.thermal_objects.getD j default
          = st.thermal_objects.getD j default := by
  rw [receive_eq_failure st i]
  refine ⟨rfl, rfl, rfl, ?_, ?_, ?_⟩
  · simp [List.getD_eq_getElem?_getD, List.getElem?_set_self h_i]
  · simp [List.getD_eq_getElem?_getD, List.getElem?_set_self h_i]
  · intro j hj
    simp [List.getD_eq_getElem?_getD, List.getElem?_set_ne (Ne.symm hj)]

/-- Witness for claim C6 on the sample state. -/
theorem thermal_C6_failure_sentinel_witness :
    0 < sample_state.thermal_objects.length
    ∧ ((receive_temperature_response sample_state 0 (-1)).2 = []
      ∧ (receive_temperature_response sample_state 0 (-1)).1.current_status =
          sample_state.current_status
      ∧ (receive_temperature_response sample_state 0 (-1)).1.overheated =
          sample_state.overheated
      ∧ ((receive_temperature_response sample_state 0 (-1)).1.thermal_objects.getD 0
          default).status = (sample_state.thermal_objects.getD 0 default).status
      ∧ ((receive_temperature_response sample_state 0 (-1)).1.thermal_objects.getD 0
          default).request_pending = false
      ∧ ∀ j, j ≠ 0 →
          (receive_temperature_response sample_state 0 (-1)).1.thermal_objects.getD j
            default = sample_state.thermal_objects.getD j default) :=
  ⟨by decide, thermal_C6_failure_sentinel sample_state 0 (by decide)⟩

/-- Claim C7: a poll trigger arriving while the object's request_pending
    flag is set does not invoke the reading capability and leaves the
    whole module state (flag and status included) unchanged; the poll
    cycle still re-arms but issues no temperature request. -/
theorem thermal_C7_single_inflight (st : ThermalManagerState) (i : Nat)
    (cap : Capability)
    (h_p : (st.thermal_objects.getD i default).request_pending = true) :
    send_temperature_request st i cap = (st, [])
    ∧ (thermal_object_polling_interval_expired st i cap).1 = st
    ∧ ∀ j, Event.temperatureRequest j ∉
        (thermal_object_polling_interval_expired st i cap).2 := by
  have hsend : send_temperature_request st i cap = (st, []) := by
    unfold send_temperature_request
    rw [if_neg (by simp [List.getD_eq_getElem?_getD] at h_p; simp [h_p])]
  refine ⟨hsend, ?_, ?_⟩
  · simp only [thermal_object_polling_interval_expired]
    rw [hsend]
  · intro j
    simp only [thermal_object_polling_interval_expired]
    rw [hsend]
    simp

/-- Witness for claim C7 on the sample state, whose object has an
    in-flight request. -/
theorem thermal_C7_single_inflight_witness :
    (sample_state.thermal_objects.getD 0 default).request_pending = true
    ∧ send_temperature_request sample_state 0 Capability.rejected =
        (sample_state, [])
    ∧ (thermal_object_polling_interval_expired sample_state 0
        Capability.rejected).1 = sample_state :=
  ⟨by decide,
   (thermal_C7_single_inflight sample_state 0 Capability.rejected (by decide)).1,
   (thermal_C7_single_inflight sample_state 0 Capability.rejected (by decide)).2.1⟩

/-- If the tuning-read loop reports success, every line it was meant to
    read parsed. -/
theorem config_read_loop_isSome (lines : List (Option (Int × Int × Int))) :
    ∀ (fuel i : Nat) (c : thermal_object_configuration_t),
      (config_read_loop lines fuel i c).1 = true →
      ∀ j, i ≤ j → j < 4 → j < i + fuel → (lines.getD j none).isSome := by
  intro fuel
  induction fuel with
  | zero =>
    intro i c _ j h1 _ h3
    omega
  | succ n ih =>
    intro i c h j h1 h2 h3
    by_cases hi : i < 4
    · simp only [config_read_loop] at h
      rw [if_pos hi] at h
      cases hx : lines.getD i none with
      | none =>
        rw [hx] at h
        simp at h
      | some x =>
        rw [hx] at h
        simp only [] at h
        rcases Nat.eq_or_lt_of_le h1 with rfl | hlt
        · rw [hx]
          rfl
        · exact ih (i + 1) _ h j hlt h2 (by omega)
    · omega

/-- Claim C8: tuning reload is atomic-or-nothing.  If any of the 4 lines
    fails to parse as three comma-separated integers the whole
    configuration is returned exactly as it was; if all 4 lines parse,
    each band takes min, max and mintime from its line and maxtime is
    derived as mintime + 10, with everything else (the name) unchanged. -/
theorem thermal_C8_tuning_atomicity (config : thermal_object_configuration_t)
    (lines : List (Option (Int × Int × Int))) :
    ((∃ i, i < 4 ∧ lines.getD i none = none) →
      thermal_object_config_read config lines = (false, config))
    ∧ (∀ b0 b1 b2 b3 : Int × Int × Int, ∀ rest : List (Option (Int × Int × Int)),
      lines = some b0 :: some b1 :: some b2 :: some b3 :: rest →
      thermal_object_config_read config lines =
        (true, { config with
          state0 :=
            { min := b0.1, max := b0.2.1, mintime := b0.2.2, maxtime := b0.2.2 + 10 },
          state1 :=
            { min := b1.1, max := b1.2.1, mintime := b1.2.2, maxtime := b1.2.2 + 10 },
          state2 :=
            { min := b2.1, max := b2.2.1, mintime := b2.2.2, maxtime := b2.2.2 + 10 },
          state3 :=
            { min := b3.1, max := b3.2.1, mintime := b3.2.2, maxtime := b3.2.2 + 10 } })) := by
  constructor
  · rintro ⟨i, hi, hnone⟩
    have hfalse : (config_read_loop lines 4 0 config).1 = false := by
      cases h : (config_read_loop lines 4 0 config).1 with
      | false => rfl
      | true =>
        have hs := config_read_loop_isSome lines 4 0 config h i (Nat.zero_le i) hi
          (by omega)
        rw [hnone] at hs
        simp at hs
    unfold thermal_object_config_read
    rw [if_neg (by simp [hfalse])]
  · intro b0 b1 b2 b3 rest hlines
    subst hlines
    unfold thermal_object_config_read
    simp [config_read_loop, set_state_band]

/-- Witness for claim C8: a file whose third line fails to parse leaves
    the ladder configuration unchanged, and a fully parsed file installs
    each line with maxtime = mintime + 10. -/
theorem thermal_C8_tuning_atomicity_witness :
    (∃ i, i < 4 ∧
      ([some ((0 : Int), (39 : Int), (60 : Int)), some (40, 59, 30), none,
        some (80, 999, 5)] : List (Option (Int × Int × Int))).getD i none = none)
    ∧ thermal_object_config_read ladder_config
        [some ((0 : Int), (39 : Int), (60 : Int)), some (40, 59, 30), none,
         some (80, 999, 5)] = (false, ladder_config)
    ∧ thermal_object_config_read ladder_config
        [some ((0 : Int), (39 : Int), (60 : Int)), some (40, 59, 30),
         some (60, 79, 15), some (80, 999, 5)] =
      (true, { ladder_config with
        state0 := { min := 0, max := 39, mintime := 60, maxtime := 70 },
        state1 := { min := 40, max := 59, mintime := 30, maxtime := 40 },
        state2 := { min := 60, max := 79, mintime := 15, maxtime := 25 },
        state3 := { min := 80, max := 999, mintime := 5, maxtime := 15 } }) :=
  ⟨⟨2, by decide, rfl⟩,
   (thermal_C8_tuning_atomicity ladder_config _).1 ⟨2, by decide, rfl⟩,
   by
    rw [(thermal_C8_tuning_atomicity ladder_config _).2 (0, 39, 60) (40, 59, 30)
      (60, 79, 15) (80, 999, 5) [] rfl]
    decide⟩

/-- Claim C10: the temp-reaper helper is forked on a disk-space message
    exactly when the reported mount path is the root partition "/" and no
    reaper process is already running; any other mount path forks nothing
    and leaves the reaper state unchanged. -/
theorem tempreaper_C10_root_only (reaper_pid : Int) (mount_path : String)
    (fork_result : Int) :
    (ReaperAction.spawn ∈ (handle_disk_space reaper_pid mount_path fork_result).2
      ↔ (mount_path = "/" ∧ reaper_pid = -1))
    ∧ (mount_path ≠ "/" →
      handle_disk_space reaper_pid mount_path fork_result = (reaper_pid, [])) := by
  unfold handle_disk_space
  by_cases hr : reaper_pid ≠ -1
  · rw [if_pos hr]
    constructor
    · constructor
      · intro h
        simp at h
      · rintro ⟨_, h2⟩
        exact absurd h2 hr
    · intro _
      rfl
  · push_neg at hr
    rw [if_neg (by simp [hr])]
    by_cases hm : disk_space_running_out mount_path = true
    · rw [if_pos hm]
      have hm' : mount_path = "/" := by
        simpa [disk_space_running_out] using hm
      constructor
      · constructor
        · intro _
          exact ⟨hm', hr⟩
        · intro _
          split <;> simp
      · intro hne
        exact absurd hm' hne
    · rw [if_neg hm]
      have hm' : mount_path ≠ "/" := by
        simpa [disk_space_running_out] using hm
      constructor
      · constructor
        · intro h
          simp at h
        · rintro ⟨h1, _⟩
          exact absurd h1 hm'
      · intro _
        rfl

/-- Witness for claim C10: a message for a non-root mount path with no
    reaper running does nothing. -/
theorem tempreaper_C10_root_only_witness :
    ("/home" : String) ≠ "/"
    ∧ handle_disk_space (-1) "/home" 77 = (-1, []) :=
  ⟨by decide, (tempreaper_C10_root_only (-1) "/home" 77).2 (by decide)⟩

end Dsme
